import Mathlib

/-!
Verification development for the voice-agent repository
(`src/utils/echo_canceller.py`, `src/agent/voice_agent.py`, `src/agent/tools.py`).

Audio samples are signed 16-bit integers; we embed them as `ℤ` and carry all
arithmetic exactly over `ℚ`.  The Python code computes RMS energies and a
normalized cross-correlation with `numpy` floats; here every float comparison
against a nonnegative threshold is translated into the equivalent comparison
of squared quantities (squaring is strictly monotone on nonnegatives), which
keeps every definition computable and every branch decidable.  The `1e-6`
terms the Python adds to denominators purely to avoid float division by zero
are elided: in exact arithmetic each division in the reachable branches has a
provably nonzero denominator (`speaker_energy > 100`, `std > 0`).
Bridge lemmas at the end relate the squared comparisons back to genuine
`Real.sqrt` RMS comparisons.
-/

namespace VoiceAgent

/-- Mean of the squared samples of a frame, over `ℚ`
(`np.mean(x.astype(np.float32) ** 2)`).  The RMS energy of the frame is the
square root of this value; `meanSq` of the empty frame is `0` (Rat division
by zero). -/
def meanSq (xs : List ℤ) : ℚ :=
  (((xs.map (fun x => x * x)).sum : ℤ) : ℚ) / (xs.length : ℚ)

/-- Arithmetic mean of a frame (`np.mean`). -/
def meanQ (xs : List ℤ) : ℚ :=
  ((xs.sum : ℚ)) / (xs.length : ℚ)

/-- Sum of squared deviations from the mean: `xs.length` times the variance
computed by `np.std(xs)**2`.  `np.std xs > 0` iff `0 < sumSqDev xs`. -/
def sumSqDev (xs : List ℤ) : ℚ :=
  (xs.map (fun x => ((x : ℚ) - meanQ xs) ^ 2)).sum

/-- Sum of products of deviations from the respective means:
the numerator of the normalized cross-correlation
`np.dot((m - m.mean)/m.std, (s - s.mean)/s.std) / len(m)` after clearing the
positive denominators. -/
def crossDev (ms ss : List ℤ) : ℚ :=
  ((ms.zip ss).map (fun p => ((p.1 : ℚ) - meanQ ms) * ((p.2 : ℚ) - meanQ ss))).sum

/-- The last `n` elements of a list: the time-aligned slice
`list(self.speaker_buffer)[-len(mic_audio):]` of the circular speaker
buffer. -/
def lastN (n : ℕ) (l : List ℤ) : List ℤ :=
  l.drop (l.length - n)

/-- State of `EchoCanceller` (`src/utils/echo_canceller.py`).  The deque
`speaker_buffer` (maxlen `buffer_size`) is embedded as the list of its
elements, oldest first.  The tuned constants `correlation_threshold = 0.6`
and `barge_in_energy_multiplier = 2.5` are inlined at their use sites as the
exact rationals `3/5` and `5/2` (in squared, denominator-cleared form). -/
structure EchoCanceller where
  sample_rate : ℕ := 24000
  buffer_size : ℕ := 48000
  speaker_buffer : List ℤ := []
  is_playing : Bool := false
  cooldown_samples : ℕ := 7200
  samples_since_play : ℕ := 7201
  deriving DecidableEq, Repr

namespace EchoCanceller

/-- `EchoCanceller.add_speaker_audio`: mark playback active, reset
`samples_since_play`, and append the played samples to the bounded deque
(appending one-by-one to a deque with `maxlen` keeps the last
`buffer_size` samples). -/
def add_speaker_audio (c : EchoCanceller) (audio : List ℤ) : EchoCanceller :=
  { c with
    is_playing := true
    samples_since_play := 0
    speaker_buffer := lastN c.buffer_size (c.speaker_buffer ++ audio) }

/-- `EchoCanceller.mark_playback_stopped`. -/
def mark_playback_stopped (c : EchoCanceller) : EchoCanceller :=
  { c with is_playing := false }

/-- The correlation test at the end of `process_mic_input`:
the Python computes `correlation = |dot(mic_norm, spk_norm)| / n` with
mean-centred, std-normalised copies and suppresses the frame when
`correlation > 0.6`, guarded by `np.std(mic) > 0 and np.std(spk) > 0`.
With `n * σm * σs = √(sumSqDev m * sumSqDev s)` the float comparison
`|C| / √(Sm*Ss) > 3/5` becomes the exact `25 * C² > 9 * Sm * Ss`.
Returns `true` when the frame is judged to be echo. -/
def corrEcho (m s : List ℤ) : Bool :=
  if 0 < sumSqDev m ∧ 0 < sumSqDev s then
    if 25 * (crossDev m s) ^ 2 > 9 * (sumSqDev m * sumSqDev s) then true
    else false
  else false

/-- `EchoCanceller.process_mic_input`, translated branch by branch.
Returns the updated state, the (always unmodified) audio, and the
`is_likely_human` flag.  Float comparisons are in squared form:
`mic_energy < 100` is `meanSq mic < 10000`, `speaker_energy > 100` is
`meanSq spk > 10000`, `energy_ratio > 2.5` is `4*micSq > 25*spkSq`, and
`energy_ratio < 0.3` is `100*micSq < 9*spkSq`. -/
def process_mic_input (c : EchoCanceller) (mic_audio : List ℤ) :
    EchoCanceller × List ℤ × Bool :=
  let c' := { c with samples_since_play := c.samples_since_play + mic_audio.length }
  if c'.samples_since_play > c'.cooldown_samples ∧ c'.is_playing = false then
    (c', mic_audio, true)
  else
    let micSq := meanSq mic_audio
    if micSq < 10000 then (c', mic_audio, true)
    else if c'.speaker_buffer.length < mic_audio.length then (c', mic_audio, true)
    else
      let speaker_recent := lastN mic_audio.length c'.speaker_buffer
      let spkSq := meanSq speaker_recent
      if spkSq > 10000 then
        if 4 * micSq > 25 * spkSq then (c', mic_audio, true)
        else if 100 * micSq < 9 * spkSq then (c', mic_audio, true)
        else if c'.is_playing = false then (c', mic_audio, true)
        else if corrEcho mic_audio speaker_recent then (c', mic_audio, false)
        else (c', mic_audio, true)
      else if corrEcho mic_audio speaker_recent then (c', mic_audio, false)
      else (c', mic_audio, true)

/-- `EchoCanceller.is_safe_to_detect_speech`. -/
def is_safe_to_detect_speech (c : EchoCanceller) : Bool :=
  decide (c.samples_since_play > c.cooldown_samples) && !c.is_playing

end EchoCanceller

/-- State of `SimpleEchoGate` (`src/utils/echo_canceller.py`), the coarse
timing-based alternative to the correlation discriminator.
`gate_samples = int(24000 * 0.6) = 14400`. -/
structure SimpleEchoGate where
  sample_rate : ℕ := 24000
  is_ai_speaking : Bool := false
  samples_since_ai_stopped : ℕ := 0
  gate_samples : ℕ := 14400
  deriving DecidableEq, Repr

namespace SimpleEchoGate

/-- `SimpleEchoGate.ai_started_speaking`. -/
def ai_started_speaking (g : SimpleEchoGate) : SimpleEchoGate :=
  { g with is_ai_speaking := true, samples_since_ai_stopped := 0 }

/-- `SimpleEchoGate.ai_stopped_speaking`. -/
def ai_stopped_speaking (g : SimpleEchoGate) : SimpleEchoGate :=
  { g with is_ai_speaking := false, samples_since_ai_stopped := 0 }

/-- `SimpleEchoGate.process_samples`: advance time (in samples) while the AI
is not speaking, and report whether speech detection is allowed
(`not is_ai_speaking and samples_since_ai_stopped > gate_samples`). -/
def process_samples (g : SimpleEchoGate) (num_samples : ℕ) : SimpleEchoGate × Bool :=
  let g' :=
    if g.is_ai_speaking then g
    else { g with samples_since_ai_stopped := g.samples_since_ai_stopped + num_samples }
  (g', !g'.is_ai_speaking && decide (g'.samples_since_ai_stopped > g'.gate_samples))

/-- `SimpleEchoGate.should_send_audio`: the body is literally
`return True` (the comment in the source says "Always send audio - let
server-side VAD handle it"). -/
def should_send_audio (_g : SimpleEchoGate) : Bool :=
  true

/-- `SimpleEchoGate.get_state`, with the cooldown progress counter elided
from the debug string. -/
def get_state (g : SimpleEchoGate) : String :=
  if g.is_ai_speaking then "AI_SPEAKING"
  else if g.samples_since_ai_stopped < g.gate_samples then "COOLDOWN"
  else "LISTENING"

end SimpleEchoGate

/-- State of `AudioPlayer` (`src/agent/voice_agent.py`).  The thread-safe
`queue.Queue` of int16 numpy arrays is embedded as a FIFO list of frames
(each frame a `List ℤ`); `threading.Event` flags are Booleans.  The playback
thread and the output device are not modelled: the claims below concern the
queue/flag discipline of `play` / `cancel_current` before any frame is
consumed. -/
structure AudioPlayer where
  audio_queue : List (List ℤ) := []
  stop_flag : Bool := false
  interrupt_flag : Bool := false
  deriving DecidableEq, Repr

namespace AudioPlayer

/-- `AudioPlayer.play`: drop the frame when `interrupt_flag` is set; only
queue non-empty audio (`if len(audio_array) > 0`).  The `np.frombuffer`
decoding of the raw bytes is elided: the frame arrives as its samples. -/
def play (p : AudioPlayer) (audio : List ℤ) : AudioPlayer :=
  if p.interrupt_flag then p
  else if 0 < audio.length then { p with audio_queue := p.audio_queue ++ [audio] }
  else p

/-- `AudioPlayer.cancel_current`: set the interrupt flag and drain the queue
with `get_nowait` until empty.  The `threading.Timer(0.1, _reset_interrupt)`
it starts is modelled by applying `reset_interrupt` (below) when the 100 ms
guard window elapses. -/
def cancel_current (p : AudioPlayer) : AudioPlayer :=
  { p with interrupt_flag := true, audio_queue := [] }

/-- `AudioPlayer._reset_interrupt`: the timer callback that clears the
interrupt flag 100 ms after `cancel_current`. -/
def reset_interrupt (p : AudioPlayer) : AudioPlayer :=
  { p with interrupt_flag := false }

/-- `AudioPlayer.set_response`: a new response clears the interrupt flag. -/
def set_response (p : AudioPlayer) : AudioPlayer :=
  { p with interrupt_flag := false }

end AudioPlayer

/-! ## Tool dispatch (`src/agent/tools.py`)

`handle_tool_call` dispatches on the tool name to seven functions imported
from `config/hospital_data.py` (the knowledge base, an external collaborator:
only its call contract matters here).  A Python callee may raise; we model
each callee as returning `Except String String`, where `Except.error e`
stands for an exception whose `str(e)` is `e`. -/

/-- Argument mapping for a tool call: the JSON object decoded from
`event.arguments`, restricted to the string-valued keys the dispatcher
reads.  `arguments.get(key, "")` is `getArg`. -/
abbrev ToolArgs := List (String × String)

/-- `arguments.get(key, "")`. -/
def getArg (args : ToolArgs) (key : String) : String :=
  match List.lookup key args with
  | some v => v
  | none => ""

/-- The seven callees of `handle_tool_call`, imported from the knowledge
base.  Each may raise (`Except.error`). -/
structure ToolImpls where
  get_hospital_info : Except String String
  get_facilities : Except String String
  get_all_doctors_summary : Except String String
  get_doctor_details : String → Except String String
  get_department_info : String → Except String String
  get_all_specialties_for_routing : Except String String
  get_second_opinion_info : Except String String

/-- The `try:` body of `handle_tool_call`: the `if/elif` chain on
`tool_name`, ending in `return f"Unknown tool: {tool_name}"`. -/
def dispatchTool (impls : ToolImpls) (tool_name : String) (arguments : ToolArgs) :
    Except String String :=
  if tool_name = "get_hospital_info" then impls.get_hospital_info
  else if tool_name = "get_facilities" then impls.get_facilities
  else if tool_name = "get_all_doctors" then impls.get_all_doctors_summary
  else if tool_name = "get_doctor_details" then
    impls.get_doctor_details (getArg arguments "doctor_name")
  else if tool_name = "get_department_info" then
    impls.get_department_info (getArg arguments "department")
  else if tool_name = "get_specialties" then impls.get_all_specialties_for_routing
  else if tool_name = "get_second_opinion_info" then impls.get_second_opinion_info
  else Except.ok ("Unknown tool: " ++ tool_name)

/-- `handle_tool_call`: run the dispatch chain under the
`except Exception as e: return f"Error executing tool: {str(e)}"` handler,
so the result is always a plain string. -/
def handle_tool_call (impls : ToolImpls) (tool_name : String) (arguments : ToolArgs) :
    String :=
  match dispatchTool impls tool_name arguments with
  | Except.ok s => s
  | Except.error e => "Error executing tool: " ++ e

/-- The tool names recognised by the dispatch chain. -/
def knownToolNames : List String :=
  ["get_hospital_info", "get_facilities", "get_all_doctors", "get_doctor_details",
   "get_department_info", "get_specialties", "get_second_opinion_info"]

/-! ## The event loop of `RealtimeVoiceAgent.handle_realtime_connection`
(`src/agent/voice_agent.py`)

The `async for event in conn` loop is embedded as a step function on the
agent state: each inbound event, processed at a wall-clock time `t` (the
`time.time()` the handler would observe, as a `ℚ`), yields the next state
and the list of outbound messages / external calls the handler issues.
Console printing and cost-tracker logging are elided (they do not touch the
modelled state); the awaited summarization helpers surface as a `summarize`
action. -/

/-- The inbound events the loop dispatches on (`event.type`), with the
payload fields each branch reads.  An audio delta arrives already decoded to
its int16 samples (`base64.b64decode`).  `otherEvent` stands for any
unrecognised event type, which the loop ignores. -/
inductive AgentEvent where
  | speechStarted
  | speechStopped
  | responseCancelled
  | sessionCreated
  | sessionUpdated
  | audioDelta (audio : List ℤ)
  | transcriptDelta (itemId : String) (delta : String)
  | transcriptDone (itemId : String)
  | responseDone
  | functionCallDone (name : String) (callId : String) (arguments : ToolArgs)
  | errorEvent (msg : String)
  | otherEvent (ty : String)
  deriving DecidableEq, Repr

/-- Outbound messages and external calls a handler branch issues:
`conn.response.cancel()`, `conn.conversation.item.create` with a
`function_call_output`, `conn.response.create()`, the one-time
`conn.session.update`, and the awaited `summarize_conversation()`. -/
inductive AgentAction where
  | sessionUpdate
  | cancelResponse
  | sendToolResult (callId : String) (output : String)
  | createResponse
  | summarize
  deriving DecidableEq, Repr

/-- `true` exactly on the session-configuration-update message. -/
def isSessionUpdate : AgentAction → Bool
  | AgentAction.sessionUpdate => true
  | _ => false

/-- The session state the loop mutates: the audio player, the echo-protection
flags `ai_speaking` / `ai_speech_end_time` (with `ECHO_COOLDOWN = 0.8`),
the summarization counters, and the per-item transcript accumulator
`acc_items`. -/
structure AgentState where
  player : AudioPlayer := {}
  ai_speaking : Bool := false
  ai_speech_end_time : ℚ := 0
  turn_count : ℕ := 0
  recent_exchanges : List (String × String) := []
  acc_items : List (String × String) := []
  deriving DecidableEq, Repr

/-- `ECHO_COOLDOWN = 0.8` seconds. -/
def ECHO_COOLDOWN : ℚ := 4/5

/-- `MAX_TURNS_BEFORE_SUMMARY = 4`. -/
def MAX_TURNS_BEFORE_SUMMARY : ℕ := 4

/-- `acc_items[item_id] = acc_items.get(item_id, "") + delta`. -/
def accAppend (acc : List (String × String)) (itemId delta : String) :
    List (String × String) :=
  match List.lookup itemId acc with
  | some text => acc.map (fun p => if p.1 = itemId then (p.1, text ++ delta) else p)
  | none => acc ++ [(itemId, delta)]

/-- `self.recent_exchanges[-1]['assistant'] = ai_response` (only when the
list is non-empty, per the `if self.recent_exchanges:` guard). -/
def setLastAssistant (ex : List (String × String)) (resp : String) :
    List (String × String) :=
  match ex.reverse with
  | [] => ex
  | last :: rest => ((last.1, resp) :: rest).reverse

/-- One iteration of the `async for event in conn` loop: dispatch on the
event type, at observation time `t`.  `tool` is the imported
`handle_tool_call` (partially applied to the knowledge-base
implementations). -/
def handleEvent (tool : String → ToolArgs → String) (s : AgentState) (t : ℚ) :
    AgentEvent → AgentState × List AgentAction
  | AgentEvent.speechStarted =>
      -- echo protection: ignore if the AI is speaking or within the cooldown
      if s.ai_speaking = true ∨ t - s.ai_speech_end_time < ECHO_COOLDOWN then
        (s, [])
      else
        ({ s with player := s.player.cancel_current, ai_speaking := false },
         [AgentAction.cancelResponse])
  | AgentEvent.responseCancelled =>
      ({ s with player := s.player.cancel_current, ai_speaking := false,
                ai_speech_end_time := t }, [])
  | AgentEvent.sessionCreated => (s, [])
  | AgentEvent.sessionUpdated => (s, [])
  | AgentEvent.audioDelta audio =>
      ({ s with ai_speaking := true, player := s.player.play audio }, [])
  | AgentEvent.transcriptDelta itemId delta =>
      ({ s with acc_items := accAppend s.acc_items itemId delta }, [])
  | AgentEvent.transcriptDone itemId =>
      let s1 := { s with ai_speaking := false, ai_speech_end_time := t }
      match List.lookup itemId s.acc_items with
      | none => (s1, [])
      | some resp =>
          let s2 := { s1 with
            turn_count := s1.turn_count + 1
            recent_exchanges := setLastAssistant s1.recent_exchanges resp }
          if s2.turn_count ≥ MAX_TURNS_BEFORE_SUMMARY then (s2, [AgentAction.summarize])
          else (s2, [])
  | AgentEvent.responseDone =>
      -- `truncate_old_items`: summarize and reset once the turn count
      -- reaches `MAX_TURNS_BEFORE_SUMMARY * 2`
      let s1 := { s with ai_speaking := false, ai_speech_end_time := t }
      if s1.turn_count ≥ MAX_TURNS_BEFORE_SUMMARY * 2 then
        ({ s1 with turn_count := 0 }, [AgentAction.summarize])
      else (s1, [])
  | AgentEvent.speechStopped =>
      ({ s with recent_exchanges := s.recent_exchanges ++ [("[audio]", "")] }, [])
  | AgentEvent.functionCallDone name callId arguments =>
      (s, [AgentAction.sendToolResult callId (tool name arguments),
           AgentAction.createResponse])
  | AgentEvent.errorEvent _ => (s, [])
  | AgentEvent.otherEvent _ => (s, [])

/-- Run the event loop over a trace of timestamped inbound events,
threading the state and concatenating the outbound actions. -/
def runLoop (tool : String → ToolArgs → String) (s : AgentState) :
    List (ℚ × AgentEvent) → AgentState × List AgentAction
  | [] => (s, [])
  | (t, e) :: rest =>
      let step := handleEvent tool s t e
      let next := runLoop tool step.1 rest
      (next.1, step.2 ++ next.2)

/-- The full outbound trace of one successful connection: immediately after
connecting, `handle_realtime_connection` sends the single
`conn.session.update` (voice, instructions, tools, turn-detection
parameters) and then enters the event loop, whose handlers never send
another one. -/
def sessionTrace (tool : String → ToolArgs → String) (s : AgentState)
    (events : List (ℚ × AgentEvent)) : List AgentAction :=
  AgentAction.sessionUpdate :: (runLoop tool s events).2

/-! ## Bridge lemmas: squared comparisons versus genuine RMS comparisons -/

/-- `meanSq` is a mean of squares, hence nonnegative. -/
lemma meanSq_nonneg (xs : List ℤ) : 0 ≤ meanSq xs := by
  unfold meanSq
  apply div_nonneg
  · have h : 0 ≤ ((xs.map (fun x => x * x)).sum : ℤ) := by
      apply List.sum_nonneg
      intro x hx
      simp only [List.mem_map] at hx
      obtain ⟨y, _, rfl⟩ := hx
      exact mul_self_nonneg y
    exact_mod_cast h
  · exact_mod_cast Nat.zero_le xs.length

/-- The RMS energy `√(meanSq xs)` is below a positive threshold `c` iff
`meanSq xs < c²`: the squared-form branch conditions used in
`process_mic_input` agree with the float comparisons of the source
(e.g. `mic_energy < 100 ↔ meanSq mic < 10000`). -/
lemma rms_lt_iff (xs : List ℤ) (c : ℚ) (hc : 0 < c) :
    Real.sqrt ((meanSq xs : ℝ)) < (c : ℝ) ↔ meanSq xs < c ^ 2 := by
  rw [Real.sqrt_lt' (by exact_mod_cast hc)]
  norm_cast

/-- A positive threshold `c` is below the RMS energy `√(meanSq xs)` iff
`c² < meanSq xs` (e.g. `speaker_energy > 100 ↔ 10000 < meanSq spk`). -/
lemma lt_rms_iff (xs : List ℤ) (c : ℚ) (hc : 0 ≤ c) :
    (c : ℝ) < Real.sqrt ((meanSq xs : ℝ)) ↔ c ^ 2 < meanSq xs := by
  rw [Real.lt_sqrt (by exact_mod_cast hc)]
  norm_cast

/-- The barge-in test: the captured RMS exceeds `2.5×` the played RMS iff
`25 * meanSq spk < 4 * meanSq mic`, the squared form used in
`process_mic_input`. -/
lemma rms_barge_in_iff (m s : List ℤ) :
    (5 / 2 : ℝ) * Real.sqrt ((meanSq s : ℝ)) < Real.sqrt ((meanSq m : ℝ)) ↔
      25 * meanSq s < 4 * meanSq m := by
  rw [Real.lt_sqrt (mul_nonneg (by norm_num) (Real.sqrt_nonneg _)), mul_pow,
    Real.sq_sqrt (by exact_mod_cast meanSq_nonneg s)]
  have h4 : ((25 : ℚ) * meanSq s : ℚ) < 4 * meanSq m ↔
      ((25 * meanSq s : ℚ) : ℝ) < ((4 * meanSq m : ℚ) : ℝ) := by
    exact Iff.symm Rat.cast_lt
  rw [h4]
  push_cast
  constructor <;> intro h <;> nlinarith [h]

/-! ## Claims about `EchoCanceller.process_mic_input` -/

/-- C8: in every branch of `process_mic_input` the first component of the
result is the input frame itself, unmodified — the samples are never
filtered or altered, only the human/echo flag varies. -/
theorem c8_audio_passthrough (c : EchoCanceller) (mic : List ℤ) :
    (EchoCanceller.process_mic_input c mic).2.1 = mic := by
  unfold EchoCanceller.process_mic_input
  dsimp only
  split_ifs <;> rfl

/-- C4: whenever the speaker buffer holds fewer samples than the incoming
frame, `process_mic_input` classifies the frame as human, for every state
and frame, regardless of the frame's energy (fail open). -/
theorem c4_fail_open_without_history (c : EchoCanceller) (mic : List ℤ)
    (h : c.speaker_buffer.length < mic.length) :
    (EchoCanceller.process_mic_input c mic).2.2 = true := by
  unfold EchoCanceller.process_mic_input
  dsimp only
  split_ifs <;> rfl

/-- Witness for C4: an empty speaker buffer and a loud two-sample frame. -/
theorem c4_fail_open_without_history_witness :
    (({} : EchoCanceller).speaker_buffer.length < ([5000, 5000] : List ℤ).length) ∧
      (EchoCanceller.process_mic_input {} [5000, 5000]).2.2 = true :=
  ⟨by norm_num, c4_fail_open_without_history {} [5000, 5000] (by norm_num)⟩

/-- C1 fails on the code as stated: with playback active, a played slice of
RMS exactly 100 (so `speaker_energy > 100` is false and the barge-in
energy-ratio rule is skipped) and a perfectly correlated captured frame of
RMS 400 — four times louder than the slice, far above the `2.5×` barge-in
multiplier — `process_mic_input` classifies the frame as echo
(`is_likely_human = false`), because control falls through to the
correlation test. -/
theorem c1_counterexample :
    25 * meanSq (lastN ([400, -400, 400, -400] : List ℤ).length
        [100, -100, 100, -100]) <
      4 * meanSq ([400, -400, 400, -400] : List ℤ) ∧
    (EchoCanceller.process_mic_input
        { speaker_buffer := [100, -100, 100, -100], is_playing := true,
          samples_since_play := 0 }
        [400, -400, 400, -400]).2.2 = false := by
  constructor
  · norm_num [meanSq, lastN]
  · norm_num [EchoCanceller.process_mic_input, meanSq, meanQ, lastN, sumSqDev,
      crossDev, EchoCanceller.corrEcho]

/-- C1 amended: the barge-in rule wins whenever the time-aligned played
slice is itself above the noise floor (`speaker_energy > 100`, in squared
form `10000 < meanSq spk`).  Under that proviso, a captured frame whose RMS
exceeds `2.5×` the played RMS (squared form `25 * meanSq spk < 4 * meanSq
mic`) is always classified human, in every state and regardless of what the
cross-correlation would say. -/
theorem c1_barge_in_wins_above_floor (c : EchoCanceller) (mic : List ℤ)
    (hlen : mic.length ≤ c.speaker_buffer.length)
    (hfloor : 10000 < meanSq (lastN mic.length c.speaker_buffer))
    (hgt : 25 * meanSq (lastN mic.length c.speaker_buffer) < 4 * meanSq mic) :
    (EchoCanceller.process_mic_input c mic).2.2 = true := by
  unfold EchoCanceller.process_mic_input
  dsimp only
  split_ifs <;> rfl

/-- Witness for C1 amended: played slice RMS 200, captured frame RMS 600
(ratio 3), playback active. -/
theorem c1_barge_in_wins_above_floor_witness :
    (([600, -600, 600, -600] : List ℤ).length ≤
        ([200, -200, 200, -200] : List ℤ).length) ∧
    10000 < meanSq (lastN ([600, -600, 600, -600] : List ℤ).length
        [200, -200, 200, -200]) ∧
    25 * meanSq (lastN ([600, -600, 600, -600] : List ℤ).length
        [200, -200, 200, -200]) < 4 * meanSq ([600, -600, 600, -600] : List ℤ) ∧
    (EchoCanceller.process_mic_input
        { speaker_buffer := [200, -200, 200, -200], is_playing := true,
          samples_since_play := 0 }
        [600, -600, 600, -600]).2.2 = true :=
  ⟨by norm_num, by norm_num [meanSq, lastN], by norm_num [meanSq, lastN],
    c1_barge_in_wins_above_floor
      { speaker_buffer := [200, -200, 200, -200], is_playing := true,
        samples_since_play := 0 }
      [600, -600, 600, -600] (by norm_num) (by norm_num [meanSq, lastN])
      (by norm_num [meanSq, lastN])⟩

/-- C5 fails on the code as stated: with playback history present but
`is_playing = false` (within the 300 ms cooldown after playback stopped), a
captured frame of comparable energy (here equal: ratio 1) and perfect
correlation with the played slice is classified human, not echo — the
`if not self.is_playing: return mic_audio, True` guard inside the
energy-comparison block bypasses the correlation test. -/
theorem c5_counterexample :
    ¬ meanSq ([200, -200, 200, -200] : List ℤ) < 10000 ∧
    ¬ 4 * meanSq ([200, -200, 200, -200] : List ℤ) >
        25 * meanSq (lastN 4 [200, -200, 200, -200]) ∧
    ¬ 100 * meanSq ([200, -200, 200, -200] : List ℤ) <
        9 * meanSq (lastN 4 [200, -200, 200, -200]) ∧
    EchoCanceller.corrEcho [200, -200, 200, -200]
        (lastN 4 [200, -200, 200, -200]) = true ∧
    (EchoCanceller.process_mic_input
        { speaker_buffer := [200, -200, 200, -200], is_playing := false,
          samples_since_play := 0 }
        [200, -200, 200, -200]).2.2 = true := by
  refine ⟨?_, ?_, ?_, ?_, ?_⟩
  · norm_num [meanSq]
  · norm_num [meanSq, lastN]
  · norm_num [meanSq, lastN]
  · norm_num [EchoCanceller.corrEcho, meanQ, lastN, sumSqDev, crossDev]
  · norm_num [EchoCanceller.process_mic_input, meanSq, meanQ, lastN, sumSqDev,
      crossDev, EchoCanceller.corrEcho]

/-- C5 amended: while playback is active (`is_playing`), for a captured
frame above the noise floor with energy comparable to the aligned played
slice (ratio within `[0.3, 2.5]`, in squared form), the classification is
echo exactly when the normalized cross-correlation exceeds `0.6`
(`corrEcho`, the squared form of the source's correlation test with its
positive-std guards); otherwise human. -/
theorem c5_correlation_decides (c : EchoCanceller) (mic : List ℤ)
    (hplay : c.is_playing = true)
    (hlen : mic.length ≤ c.speaker_buffer.length)
    (hmic : ¬ meanSq mic < 10000)
    (hub : ¬ 4 * meanSq mic > 25 * meanSq (lastN mic.length c.speaker_buffer))
    (hlb : ¬ 100 * meanSq mic < 9 * meanSq (lastN mic.length c.speaker_buffer)) :
    (EchoCanceller.process_mic_input c mic).2.2 =
      !(EchoCanceller.corrEcho mic (lastN mic.length c.speaker_buffer)) := by
  unfold EchoCanceller.process_mic_input
  dsimp only
  split_ifs <;> first | omega | simp_all

/-- Witness for C5 amended: playback active, identical frame and slice
(ratio 1, correlation 1): classified echo. -/
theorem c5_correlation_decides_witness :
    ((({ speaker_buffer := [200, -200, 200, -200], is_playing := true,
          samples_since_play := 0 } : EchoCanceller)).is_playing = true) ∧
    (([200, -200, 200, -200] : List ℤ).length ≤
        ([200, -200, 200, -200] : List ℤ).length) ∧
    (¬ meanSq ([200, -200, 200, -200] : List ℤ) < 10000) ∧
    (EchoCanceller.process_mic_input
        { speaker_buffer := [200, -200, 200, -200], is_playing := true,
          samples_since_play := 0 }
        [200, -200, 200, -200]).2.2 =
      !(EchoCanceller.corrEcho [200, -200, 200, -200]
          (lastN ([200, -200, 200, -200] : List ℤ).length
            [200, -200, 200, -200])) :=
  ⟨rfl, by norm_num, by norm_num [meanSq],
    c5_correlation_decides
      { speaker_buffer := [200, -200, 200, -200], is_playing := true,
        samples_since_play := 0 }
      [200, -200, 200, -200] rfl (by norm_num) (by norm_num [meanSq])
      (by norm_num [meanSq, lastN]) (by norm_num [meanSq, lastN])⟩

/-! ## Claims about `AudioPlayer` -/

/-- `play` never changes the interrupt flag. -/
lemma AudioPlayer.play_interrupt_flag (p : AudioPlayer) (a : List ℤ) :
    (p.play a).interrupt_flag = p.interrupt_flag := by
  unfold AudioPlayer.play
  split_ifs <;> rfl

/-- `play` on a player whose interrupt flag is set is a no-op. -/
lemma AudioPlayer.play_of_interrupted (p : AudioPlayer) (a : List ℤ)
    (h : p.interrupt_flag = true) : p.play a = p := by
  unfold AudioPlayer.play
  rw [h]
  rfl

/-- C2: frames `A, B, C` enqueued, then `cancel_current` before any is
written (the player thread never consumes): the queue length is `0`
immediately after the call; a `play D` issued while the 100 ms guard window
is still active (interrupt flag still set) is silently discarded, leaving
the queue empty; a `play E` issued after the guard elapsed (the
`_reset_interrupt` timer has fired) succeeds, making the queue length `1`. -/
theorem c2_cancel_clears_queue_and_guards (A B C D E : List ℤ) (hE : E ≠ []) :
    ((((({} : AudioPlayer).play A).play B).play C).cancel_current).audio_queue.length
        = 0 ∧
    (((((({} : AudioPlayer).play A).play B).play C).cancel_current).play
        D).audio_queue.length = 0 ∧
    ((((((({} : AudioPlayer).play A).play B).play C).cancel_current).reset_interrupt).play
        E).audio_queue.length = 1 := by
  refine ⟨rfl, ?_, ?_⟩
  · rw [AudioPlayer.play_of_interrupted _ D rfl]
    rfl
  · unfold AudioPlayer.play
    simp [AudioPlayer.reset_interrupt, AudioPlayer.cancel_current,
      List.length_pos.mpr hE]

/-- Witness for C2 at concrete one-sample frames. -/
theorem c2_cancel_clears_queue_and_guards_witness :
    (([5] : List ℤ) ≠ []) ∧
    (((((({} : AudioPlayer).play [1]).play [2]).play [3]).cancel_current).audio_queue.length
        = 0 ∧
    (((((({} : AudioPlayer).play [1]).play [2]).play [3]).cancel_current).play
        [4]).audio_queue.length = 0 ∧
    ((((((({} : AudioPlayer).play [1]).play [2]).play [3]).cancel_current).reset_interrupt).play
        [5]).audio_queue.length = 1) :=
  ⟨by decide, c2_cancel_clears_queue_and_guards [1] [2] [3] [4] [5] (by decide)⟩

/-! ## Claims about the event loop -/

/-- C3: a `input_audio_buffer.speech_started` event arriving while
`ai_speaking` is true, or within the `ECHO_COOLDOWN` window after
`ai_speech_end_time`, is treated as probable echo: the handler leaves the
whole state unchanged (no `cancel_current` on the player, playback not
interrupted) and issues no outbound action (no remote response
cancellation). -/
theorem c3_cooldown_suppresses_interrupt (tool : String → ToolArgs → String)
    (s : AgentState) (t : ℚ)
    (h : s.ai_speaking = true ∨ t - s.ai_speech_end_time < ECHO_COOLDOWN) :
    handleEvent tool s t AgentEvent.speechStarted = (s, []) := by
  simp only [handleEvent, if_pos h]

/-- Witness for C3: the AI is currently speaking. -/
theorem c3_cooldown_suppresses_interrupt_witness :
    ((({ ai_speaking := true } : AgentState).ai_speaking = true ∨
        (1 : ℚ) - ({ ai_speaking := true } : AgentState).ai_speech_end_time <
          ECHO_COOLDOWN)) ∧
    handleEvent (fun _ _ => "") { ai_speaking := true } 1 AgentEvent.speechStarted =
      ({ ai_speaking := true }, []) :=
  ⟨Or.inl rfl,
    c3_cooldown_suppresses_interrupt (fun _ _ => "") { ai_speaking := true } 1
      (Or.inl rfl)⟩

/-- No branch of the event loop ever emits a session-configuration-update. -/
lemma handleEvent_no_sessionUpdate (tool : String → ToolArgs → String)
    (s : AgentState) (t : ℚ) (e : AgentEvent) :
    ((handleEvent tool s t e).2).countP isSessionUpdate = 0 := by
  cases e <;> simp only [handleEvent] <;> (repeat' split) <;>
    simp [isSessionUpdate]

/-- Running the event loop over any trace emits no
session-configuration-update. -/
lemma runLoop_no_sessionUpdate (tool : String → ToolArgs → String)
    (s : AgentState) (events : List (ℚ × AgentEvent)) :
    ((runLoop tool s events).2).countP isSessionUpdate = 0 := by
  induction events generalizing s with
  | nil => simp [runLoop]
  | cons pe rest ih =>
      obtain ⟨t, e⟩ := pe
      simp [runLoop, List.countP_append, handleEvent_no_sessionUpdate, ih]

/-- C6: for every successful connection, exactly one
session-configuration-update is sent — once immediately after connecting,
and never again by any event handler during the session, whatever events
arrive. -/
theorem c6_exactly_one_session_config (tool : String → ToolArgs → String)
    (s : AgentState) (events : List (ℚ × AgentEvent)) :
    (sessionTrace tool s events).countP isSessionUpdate = 1 := by
  simp [sessionTrace, List.countP_cons, runLoop_no_sessionUpdate, isSessionUpdate]

/-- C7: the tool dispatcher always yields a textual result that the event
loop sends back as a tool-result message.  First conjunct: for every tool
name and argument mapping, the `response.function_call_arguments.done`
branch sends a `function_call_output` item carrying exactly the dispatcher's
string, then requests response continuation.  Second conjunct: whenever the
underlying tool raises (`dispatchTool` yields `Except.error e`),
`handle_tool_call` converts the failure to the textual error result rather
than letting it escape. -/
theorem c7_tool_failure_is_textual :
    (∀ (tool : String → ToolArgs → String) (s : AgentState) (t : ℚ)
        (name callId : String) (args : ToolArgs),
        handleEvent tool s t (AgentEvent.functionCallDone name callId args) =
          (s, [AgentAction.sendToolResult callId (tool name args),
               AgentAction.createResponse])) ∧
    (∀ (impls : ToolImpls) (name : String) (args : ToolArgs) (e : String),
        dispatchTool impls name args = Except.error e →
        handle_tool_call impls name args = "Error executing tool: " ++ e) := by
  refine ⟨fun tool s t name callId args => rfl, fun impls name args e h => ?_⟩
  simp [handle_tool_call, h]

/-- A knowledge-base instance whose `get_hospital_info` raises. -/
def failingImpls : ToolImpls where
  get_hospital_info := Except.error "boom"
  get_facilities := Except.ok ""
  get_all_doctors_summary := Except.ok ""
  get_doctor_details := fun _ => Except.ok ""
  get_department_info := fun _ => Except.ok ""
  get_all_specialties_for_routing := Except.ok ""
  get_second_opinion_info := Except.ok ""

/-- Witness for C7: a concrete raising tool is converted to the textual
error result, and a concrete tool-call event produces the tool-result
message. -/
theorem c7_tool_failure_is_textual_witness :
    handleEvent (fun _ _ => "ok") {} 0 (AgentEvent.functionCallDone "n" "c" []) =
      ({}, [AgentAction.sendToolResult "c" "ok", AgentAction.createResponse]) ∧
    dispatchTool failingImpls "get_hospital_info" [] = Except.error "boom" ∧
    handle_tool_call failingImpls "get_hospital_info" [] =
      "Error executing tool: " ++ "boom" :=
  ⟨c7_tool_failure_is_textual.1 (fun _ _ => "ok") {} 0 "n" "c" [], rfl,
    c7_tool_failure_is_textual.2 failingImpls "get_hospital_info" [] "boom" rfl⟩

/-! ## Claims about `SimpleEchoGate` and unknown tools -/

/-- C9: `should_send_audio` returns `true` in every state — while the AI is
speaking and during the post-playback gate window alike — so the simple
timing-gate strategy never blocks captured audio from being sent; only the
`process_samples` result (speech-detection gating) depends on the gate
state, as the last two conjuncts exhibit. -/
theorem c9_always_send_audio :
    (∀ g : SimpleEchoGate, g.should_send_audio = true) ∧
    (SimpleEchoGate.process_samples { is_ai_speaking := true } 100).2 = false ∧
    (SimpleEchoGate.process_samples
        { is_ai_speaking := false, samples_since_ai_stopped := 14401 } 0).2 = true := by
  refine ⟨fun g => rfl, by decide, by decide⟩

/-- C10: any tool name outside the seven recognized ones yields the string
`"Unknown tool: " ++ name` — no exception, no empty result — whatever the
knowledge-base implementations and arguments. -/
theorem c10_unknown_tool_is_textual (impls : ToolImpls) (name : String)
    (args : ToolArgs) (h : name ∉ knownToolNames) :
    handle_tool_call impls name args = "Unknown tool: " ++ name := by
  simp only [knownToolNames, List.mem_cons, List.not_mem_nil, or_false,
    not_or] at h
  obtain ⟨h1, h2, h3, h4, h5, h6, h7⟩ := h
  simp [handle_tool_call, dispatchTool, h1, h2, h3, h4, h5, h6, h7]

/-- Witness for C10: the unrecognized name `frobnicate`. -/
theorem c10_unknown_tool_is_textual_witness :
    ("frobnicate" ∉ knownToolNames) ∧
    handle_tool_call failingImpls "frobnicate" [] = "Unknown tool: frobnicate" :=
  ⟨by decide, c10_unknown_tool_is_textual failingImpls "frobnicate" [] (by decide)⟩

end VoiceAgent
